import Mathlib

/-!
# LUDA escrow engine — shallow embedding and verification

This file embeds the deal state machine of the LUDA program
(`programs/luda/src/{offer,request,shipment,escrow,onetimekeys,user}.rs`)
as executable Lean definitions and proves (or refutes) the specified
properties about it.

Modelling conventions:
* `u64`/`u32` amounts and counters become `Nat`; subtractions in the source
  are guarded by explicit balance checks on the paths exercised here, so
  truncated `Nat` subtraction coincides with the source's semantics there.
* `DateTime<Utc>` becomes an `Int` timestamp in seconds; `Duration::hours(24)`
  becomes the constant `hours24 = 86400`.
* A Rust method on `&mut self` returning `Result<(), &str>` becomes a pure
  function returning `Option DErr × <updated state>`: the returned state
  carries every mutation performed before an early `return Err(..)`, exactly
  as the Rust borrow leaves them in memory.
* The `&'static str` errors are mapped to the error kinds of `errors.rs`
  (`"... not in the 'Listed' state"` ↦ `IncorrectState`,
  `"Invalid ... key provided"` ↦ `KeyMismatch`,
  `"Insufficient funds ..."` ↦ `InsufficientFunds`,
  `"... hasn't expired yet"` ↦ `OperationNotAllowed`,
  `"Buyer/Carrier not found ..."` ↦ `AccountNotFound`).
* The SPL-token ledger is a balance per account; `DLUToken::transfer`
  moves an amount between two balances and fails when the source is short.
  A ledger failure surfaces as `LedgerFailure`, distinct from the state
  machine's own validation errors.
* `Uuid::new_v4()` / `onetimekeys::generate_key()` are nondeterministic in
  the source; here freshly generated key strings are passed as explicit
  arguments to the operations that generate them.
-/

namespace Luda

/-- Error kinds, following `errors.rs` (`DLUError`). -/
inductive DErr where
  | IncorrectState
  | KeyMismatch
  | InsufficientFunds
  | OperationNotAllowed
  | AccountNotFound
  | LedgerFailure
  deriving DecidableEq, Repr

/-- `dlu_wallet.rs`: a wallet's DLU balance (the `owner` pubkey carries no
semantics for the transitions and is omitted). -/
structure DLUWallet where
  balance : Nat
  deriving DecidableEq, Repr

/-- `user.rs`: reputation classification of a user. -/
inductive UserStatus where
  | New
  | Credible
  | Reliable
  | Risky
  | Unreliable
  | Suspicious
  | Fraud
  deriving DecidableEq, Repr

/-- `user.rs`: a user record (username/pubkey omitted: no transition reads them). -/
structure User where
  wallet : DLUWallet
  status : UserStatus
  total_deals : Nat
  successful_deals : Nat
  failed_deals : Nat
  total_shipments : Nat
  successful_shipments : Nat
  failed_shipments : Nat
  deriving DecidableEq, Repr

/-- `User::update_status`: recompute the reputation classification.
The Rust source compares an `f32` success rate against 0.9/0.7/0.5/0.2;
those comparisons are expressed here as the exact integer inequalities
`10*s ≥ 9*t`, `10*s ≥ 7*t`, `2*s ≥ t`, `5*s ≥ t`. -/
def User.update_status (u : User) : User :=
  let total_operations := u.total_deals + u.total_shipments
  let successful_operations := u.successful_deals + u.successful_shipments
  if total_operations < 3 then
    { u with status := UserStatus.New }
  else if total_operations > 10 ∧ successful_operations = total_operations then
    { u with status := UserStatus.Credible }
  else if 10 * successful_operations ≥ 9 * total_operations then
    { u with status := UserStatus.Reliable }
  else if 10 * successful_operations ≥ 7 * total_operations then
    { u with status := UserStatus.Risky }
  else if 2 * successful_operations ≥ total_operations then
    { u with status := UserStatus.Unreliable }
  else if 5 * successful_operations ≥ total_operations then
    { u with status := UserStatus.Suspicious }
  else
    { u with status := UserStatus.Fraud }

/-- `User::mark_deal`: increment the deal counters and recompute the status. -/
def User.mark_deal (u : User) (successful : Bool) : User :=
  let u :=
    if successful then
      { u with total_deals := u.total_deals + 1,
               successful_deals := u.successful_deals + 1 }
    else
      { u with total_deals := u.total_deals + 1,
               failed_deals := u.failed_deals + 1 }
  u.update_status

/-- `User::mark_shipment`: increment the shipment counters and recompute the status. -/
def User.mark_shipment (u : User) (successful : Bool) : User :=
  let u :=
    if successful then
      { u with total_shipments := u.total_shipments + 1,
               successful_shipments := u.successful_shipments + 1 }
    else
      { u with total_shipments := u.total_shipments + 1,
               failed_shipments := u.failed_shipments + 1 }
  u.update_status

/-- `Duration::hours(24)` in seconds. -/
def hours24 : Int := 24 * 60 * 60

/-- `offer.rs`/`request.rs`/`shipment.rs`: a physical location. -/
structure Location where
  country : String
  town : String
  address : String
  deriving DecidableEq, Repr

/-- `DLUToken::transfer`: move `amount` from `src` to `dest` on the token
ledger; the underlying SPL transfer fails when the source balance is short,
and then no value moves. Returns the two updated balances. -/
def DLUToken.transfer (src dest amount : Nat) : Option (Nat × Nat) :=
  if src < amount then none else some (src - amount, dest + amount)

/-- `offer.rs`: the status of an offer. -/
inductive OfferStatus where
  | Listed
  | Accepted
  | Completed
  | Failed
  | Expired
  | Canceled
  deriving DecidableEq, Repr

/-- `offer.rs`: a single offer posted by a seller.  `meeting_datetime` is an
`Int` timestamp; key slots are `String`s, the empty string standing for
Rust's `String::new()` / a cleared slot, exactly as in the source. -/
structure Offer where
  id : Nat
  status : OfferStatus
  seller : User
  buyer : Option User
  meeting_point : Location
  meeting_datetime : Int
  payment : Nat
  insurance : Nat
  goodsorservice_name : String
  goodsorservice_description : String
  seller_key : String
  buyer_key : String
  escrow_id : Nat
  deriving DecidableEq, Repr

/-- The state an offer transition acts on: the offer record, the
processor-loaded `User` records passed by `&mut`, and the token-ledger
balances of the four accounts the transitions reference. -/
structure OfferWorld where
  offer : Offer
  seller : User
  buyer : User
  seller_acct : Nat
  buyer_acct : Nat
  escrow_acct : Nat
  penalty_acct : Nat
  deriving DecidableEq, Repr

/-- `Offer::list_offer`.  Insurance is set equal to the payment; the seller's
wallet must cover it, is debited, and the amount is locked in escrow
(`Escrow::lock_funds` on the wallet; `escrow_id` is the id the lock returns).
On the error path nothing has been mutated yet, hence `Except`. -/
def Offer.list_offer (id : Nat) (seller : User)
    (goodsorservice_name goodsorservice_description : String) (payment : Nat)
    (meeting_point : Location) (meeting_datetime : Int)
    (escrow_acct escrow_id : Nat) : Except DErr (Offer × User × Nat) :=
  let insurance := payment
  if seller.wallet.balance < insurance then
    Except.error DErr.InsufficientFunds
  else
    let seller := { seller with wallet := { balance := seller.wallet.balance - insurance } }
    let escrow_acct := escrow_acct + insurance
    Except.ok
      ({ id := id
         status := OfferStatus.Listed
         seller := seller
         buyer := none
         meeting_point := meeting_point
         meeting_datetime := meeting_datetime
         payment := payment
         insurance := insurance
         goodsorservice_name := goodsorservice_name
         goodsorservice_description := goodsorservice_description
         seller_key := ""
         buyer_key := ""
         escrow_id := escrow_id },
       seller, escrow_acct)

/-- `Offer::accept_offer`.  Source order: status check; generate both
one-time keys (passed in as `gen_seller_key`/`gen_buyer_key`); set the buyer
slot; read the buyer's ledger balance and check it against
payment+insurance; debit the buyer's wallet; lock the total in escrow by a
ledger transfer; set status `Accepted`.  Note that the key slots and the
buyer slot are overwritten before the funds check. -/
def Offer.accept_offer (w : OfferWorld) (gen_seller_key gen_buyer_key : String) :
    Option DErr × OfferWorld :=
  if w.offer.status ≠ OfferStatus.Listed then
    (some DErr.IncorrectState, w)
  else
    let w := { w with offer := { w.offer with
                 seller_key := gen_seller_key
                 buyer_key := gen_buyer_key
                 buyer := some w.buyer } }
    let total_deduction := w.offer.payment + w.offer.insurance
    if w.buyer_acct < total_deduction then
      (some DErr.InsufficientFunds, w)
    else
      let w := { w with buyer := { w.buyer with
                   wallet := { balance := w.buyer.wallet.balance - total_deduction } } }
      match DLUToken.transfer w.buyer_acct w.escrow_acct total_deduction with
      | none => (some DErr.LedgerFailure, w)
      | some (b, e) =>
        (none, { w with buyer_acct := b, escrow_acct := e,
                        offer := { w.offer with status := OfferStatus.Accepted } })

/-- `Offer::complete_offer`.  Source order: status check; validate the
buyer's key; defensive escrow-balance check; **release the payment to the
seller**; only then validate the seller's key; release the two insurance
legs; clear both key slots; set `Completed`; mark both reputations
successful.  The release of the payment before the seller-key validation is
taken verbatim from the source. -/
def Offer.complete_offer (w : OfferWorld)
    (entered_buyer_key entered_seller_key : String) : Option DErr × OfferWorld :=
  if w.offer.status ≠ OfferStatus.Accepted then
    (some DErr.IncorrectState, w)
  else if entered_buyer_key ≠ w.offer.buyer_key then
    (some DErr.KeyMismatch, w)
  else if w.escrow_acct < w.offer.payment + 2 * w.offer.insurance then
    (some DErr.InsufficientFunds, w)
  else
    match DLUToken.transfer w.escrow_acct w.seller_acct w.offer.payment with
    | none => (some DErr.LedgerFailure, w)
    | some (e1, s1) =>
      let w := { w with
                 escrow_acct := e1
                 seller_acct := s1
                 seller := { w.seller with
                   wallet := { balance := w.seller.wallet.balance + w.offer.payment } } }
      if entered_seller_key ≠ w.offer.seller_key then
        (some DErr.KeyMismatch, w)
      else
        match DLUToken.transfer w.escrow_acct w.seller_acct w.offer.insurance with
        | none => (some DErr.LedgerFailure, w)
        | some (e2, s2) =>
          let w := { w with
                     escrow_acct := e2
                     seller_acct := s2
                     seller := { w.seller with
                       wallet := { balance := w.seller.wallet.balance + w.offer.insurance } } }
          match DLUToken.transfer w.escrow_acct w.buyer_acct w.offer.insurance with
          | none => (some DErr.LedgerFailure, w)
          | some (e3, b3) =>
            (none, { w with
                     escrow_acct := e3
                     buyer_acct := b3
                     buyer := ({ w.buyer with
                       wallet := { balance := w.buyer.wallet.balance + w.offer.insurance } }).mark_deal true
                     seller := w.seller.mark_deal true
                     offer := { w.offer with
                       buyer_key := ""
                       seller_key := ""
                       status := OfferStatus.Completed } })

/-- `Offer::fail_offer`.  Source order: status check; validate the seller's
key against its slot (no requirement that any other secret was consumed
first); transfer payment + 2·insurance from escrow to the penalty sink;
clear both key slots; set `Failed`; mark the buyer's reputation failed. -/
def Offer.fail_offer (w : OfferWorld) (entered_seller_key : String) :
    Option DErr × OfferWorld :=
  if w.offer.status ≠ OfferStatus.Accepted then
    (some DErr.IncorrectState, w)
  else if entered_seller_key ≠ w.offer.seller_key then
    (some DErr.KeyMismatch, w)
  else
    let total_amount := w.offer.payment + 2 * w.offer.insurance
    match DLUToken.transfer w.escrow_acct w.penalty_acct total_amount with
    | none => (some DErr.LedgerFailure, w)
    | some (e, p) =>
      (none, { w with
               escrow_acct := e
               penalty_acct := p
               buyer := w.buyer.mark_deal false
               offer := { w.offer with
                 buyer_key := ""
                 seller_key := ""
                 status := OfferStatus.Failed } })

/-- `Offer::expire_offer`.  Source order: time gate (`now ≤ meeting + 24h`
fails), then status check; release payment+insurance from escrow to the
buyer's account; credit the buyer snapshot embedded in the record (error if
unset — after the ledger release); release the insurance to the seller's
account; credit the embedded seller snapshot; set `Expired`.  No reputation
call. -/
def Offer.expire_offer (w : OfferWorld) (now : Int) : Option DErr × OfferWorld :=
  if now ≤ w.offer.meeting_datetime + hours24 then
    (some DErr.OperationNotAllowed, w)
  else if w.offer.status ≠ OfferStatus.Accepted then
    (some DErr.IncorrectState, w)
  else
    let buyer_total := w.offer.payment + w.offer.insurance
    match DLUToken.transfer w.escrow_acct w.buyer_acct buyer_total with
    | none => (some DErr.LedgerFailure, w)
    | some (e1, b1) =>
      let w := { w with escrow_acct := e1, buyer_acct := b1 }
      match w.offer.buyer with
      | none => (some DErr.AccountNotFound, w)
      | some b =>
        let w := { w with offer := { w.offer with
                     buyer := some { b with
                       wallet := { balance := b.wallet.balance + buyer_total } } } }
        match DLUToken.transfer w.escrow_acct w.seller_acct w.offer.insurance with
        | none => (some DErr.LedgerFailure, w)
        | some (e2, s2) =>
          (none, { w with
                   escrow_acct := e2
                   seller_acct := s2
                   offer := { w.offer with
                     seller := { w.offer.seller with
                       wallet := { balance := w.offer.seller.wallet.balance + w.offer.insurance } }
                     status := OfferStatus.Expired } })

/-- `Offer::cancel_offer`.  Only from `Listed`; releases the locked
insurance (equal to the payment) from escrow back to the seller's account;
clears the seller's key slot; sets `Canceled`. -/
def Offer.cancel_offer (w : OfferWorld) : Option DErr × OfferWorld :=
  if w.offer.status ≠ OfferStatus.Listed then
    (some DErr.IncorrectState, w)
  else
    match DLUToken.transfer w.escrow_acct w.seller_acct w.offer.insurance with
    | none => (some DErr.LedgerFailure, w)
    | some (e, s) =>
      (none, { w with
               escrow_acct := e
               seller_acct := s
               offer := { w.offer with
                 seller_key := ""
                 status := OfferStatus.Canceled } })

/-- `Offer::update_status`: sets the status unconditionally. -/
def Offer.update_status (o : Offer) (new_status : OfferStatus) : Offer :=
  { o with status := new_status }

/-- `request.rs`: the status of a request. -/
inductive RequestStatus where
  | Listed
  | Accepted
  | Completed
  | Failed
  | Expired
  | Canceled
  deriving DecidableEq, Repr

/-- `request.rs`: a single request posted by a buyer (the buyer is the
initiator; the seller slot is unset until acceptance). -/
structure Request where
  id : Nat
  status : RequestStatus
  buyer : User
  seller : Option User
  meeting_point : Location
  meeting_datetime : Int
  payment : Nat
  insurance : Nat
  goodsorservice_name : String
  goodsorservice_description : String
  buyer_key : String
  seller_key : String
  escrow_id : Nat
  deriving DecidableEq, Repr

/-- The state a request transition acts on, as for `OfferWorld`. -/
structure RequestWorld where
  request : Request
  buyer : User
  seller : User
  buyer_acct : Nat
  seller_acct : Nat
  escrow_acct : Nat
  penalty_acct : Nat
  deriving DecidableEq, Repr

/-- `Request::list_request`.  Insurance equals the payment; the buyer's
wallet must cover payment+insurance, is debited, and the total is locked in
escrow. -/
def Request.list_request (id : Nat) (buyer : User)
    (goodsorservice_name goodsorservice_description : String) (payment : Nat)
    (meeting_point : Location) (meeting_datetime : Int)
    (escrow_acct escrow_id : Nat) : Except DErr (Request × User × Nat) :=
  let insurance := payment
  if buyer.wallet.balance < payment + insurance then
    Except.error DErr.InsufficientFunds
  else
    let buyer := { buyer with wallet := { balance := buyer.wallet.balance - (payment + insurance) } }
    let escrow_acct := escrow_acct + (payment + insurance)
    Except.ok
      ({ id := id
         status := RequestStatus.Listed
         buyer := buyer
         seller := none
         meeting_point := meeting_point
         meeting_datetime := meeting_datetime
         payment := payment
         insurance := insurance
         goodsorservice_name := goodsorservice_name
         goodsorservice_description := goodsorservice_description
         buyer_key := ""
         seller_key := ""
         escrow_id := escrow_id },
       buyer, escrow_acct)

/-- `Request::accept_request`.  Source order: status check; generate both
keys; set the seller slot; check the seller's **wallet** balance against the
insurance (this transition checks the wallet, not the ledger account);
debit the wallet; lock the insurance in escrow at wallet level; set
`Accepted`. -/
def Request.accept_request (w : RequestWorld) (gen_buyer_key gen_seller_key : String) :
    Option DErr × RequestWorld :=
  if w.request.status ≠ RequestStatus.Listed then
    (some DErr.IncorrectState, w)
  else
    let w := { w with request := { w.request with
                 buyer_key := gen_buyer_key
                 seller_key := gen_seller_key
                 seller := some w.seller } }
    if w.seller.wallet.balance < w.request.insurance then
      (some DErr.InsufficientFunds, w)
    else
      let w := { w with seller := { w.seller with
                   wallet := { balance := w.seller.wallet.balance - w.request.insurance } } }
      (none, { w with
               escrow_acct := w.escrow_acct + w.request.insurance
               request := { w.request with status := RequestStatus.Accepted } })

/-- `Request::complete_request`, line for line the same shape as
`Offer::complete_offer`: the payment is released to the seller **before**
the seller's key is validated. -/
def Request.complete_request (w : RequestWorld)
    (entered_buyer_key entered_seller_key : String) : Option DErr × RequestWorld :=
  if w.request.status ≠ RequestStatus.Accepted then
    (some DErr.IncorrectState, w)
  else if entered_buyer_key ≠ w.request.buyer_key then
    (some DErr.KeyMismatch, w)
  else if w.escrow_acct < w.request.payment + 2 * w.request.insurance then
    (some DErr.InsufficientFunds, w)
  else
    match DLUToken.transfer w.escrow_acct w.seller_acct w.request.payment with
    | none => (some DErr.LedgerFailure, w)
    | some (e1, s1) =>
      let w := { w with
                 escrow_acct := e1
                 seller_acct := s1
                 seller := { w.seller with
                   wallet := { balance := w.seller.wallet.balance + w.request.payment } } }
      if entered_seller_key ≠ w.request.seller_key then
        (some DErr.KeyMismatch, w)
      else
        match DLUToken.transfer w.escrow_acct w.seller_acct w.request.insurance with
        | none => (some DErr.LedgerFailure, w)
        | some (e2, s2) =>
          let w := { w with
                     escrow_acct := e2
                     seller_acct := s2
                     seller := { w.seller with
                       wallet := { balance := w.seller.wallet.balance + w.request.insurance } } }
          match DLUToken.transfer w.escrow_acct w.buyer_acct w.request.insurance with
          | none => (some DErr.LedgerFailure, w)
          | some (e3, b3) =>
            (none, { w with
                     escrow_acct := e3
                     buyer_acct := b3
                     buyer := ({ w.buyer with
                       wallet := { balance := w.buyer.wallet.balance + w.request.insurance } }).mark_deal true
                     seller := w.seller.mark_deal true
                     request := { w.request with
                       buyer_key := ""
                       seller_key := ""
                       status := RequestStatus.Completed } })

/-- `Request::fail_request`, same shape as `Offer::fail_offer`. -/
def Request.fail_request (w : RequestWorld) (entered_seller_key : String) :
    Option DErr × RequestWorld :=
  if w.request.status ≠ RequestStatus.Accepted then
    (some DErr.IncorrectState, w)
  else if entered_seller_key ≠ w.request.seller_key then
    (some DErr.KeyMismatch, w)
  else
    let total_amount := w.request.payment + 2 * w.request.insurance
    match DLUToken.transfer w.escrow_acct w.penalty_acct total_amount with
    | none => (some DErr.LedgerFailure, w)
    | some (e, p) =>
      (none, { w with
               escrow_acct := e
               penalty_acct := p
               buyer := w.buyer.mark_deal false
               request := { w.request with
                 buyer_key := ""
                 seller_key := ""
                 status := RequestStatus.Failed } })

/-- `Request::cancel_request`, taken verbatim from the source: only from
`Listed`; releases **only the insurance amount** (half of the
payment+insurance the buyer locked at list time) from escrow — and credits
it to the **seller's** account, although a listed request has no seller yet
and the initiator is the buyer; clears the seller's key slot; sets
`Canceled`. -/
def Request.cancel_request (w : RequestWorld) : Option DErr × RequestWorld :=
  if w.request.status ≠ RequestStatus.Listed then
    (some DErr.IncorrectState, w)
  else
    match DLUToken.transfer w.escrow_acct w.seller_acct w.request.insurance with
    | none => (some DErr.LedgerFailure, w)
    | some (e, s) =>
      (none, { w with
               escrow_acct := e
               seller_acct := s
               request := { w.request with
                 seller_key := ""
                 status := RequestStatus.Canceled } })

/-- `Request::update_status`: sets the status unconditionally. -/
def Request.update_status (r : Request) (new_status : RequestStatus) : Request :=
  { r with status := new_status }

/- `Request::expire_request` is not embedded: the source body does not
type-check as Rust (it matches `self.buyer` as an `Option` although the
field is a plain `User`, and dereferences `self.seller.wallet` although
`seller` is an `Option<User>`), and no claim below depends on it. -/

/-- `shipment.rs`: the status of a shipment. -/
inductive ShipmentStatus where
  | Listed
  | Accepted
  | Completed
  | Failed
  | Expired
  | Canceled
  deriving DecidableEq, Repr

/-- `shipment.rs`: a single shipment posted by a sender.  Unlike offers and
requests, the insurance amount is an explicit argument of the listing, not
derived from the payment. -/
structure Shipment where
  id : Nat
  status : ShipmentStatus
  sender : User
  carrier : Option User
  recipient : User
  pickup_point : Location
  pickup_datetime : Int
  drop_off_point : Location
  drop_off_datetime : Int
  payment : Nat
  insurance : Nat
  items_name : String
  quantity : Nat
  sender_key : String
  carrier_key : String
  recipient_key : String
  escrow_id : Nat
  deriving DecidableEq, Repr

/-- The state a shipment transition acts on, as for `OfferWorld`. -/
structure ShipmentWorld where
  shipment : Shipment
  sender : User
  carrier : User
  sender_acct : Nat
  carrier_acct : Nat
  escrow_acct : Nat
  penalty_acct : Nat
  deriving DecidableEq, Repr

/-- `Shipment::list_shipment`.  The insurance is set explicitly by the
sender; only the payment is checked against the sender's wallet, debited
and locked in escrow. -/
def Shipment.list_shipment (id : Nat) (sender recipient : User)
    (items_name : String) (quantity : Nat) (payment insurance : Nat)
    (pickup_point : Location) (pickup_datetime : Int)
    (drop_off_point : Location) (drop_off_datetime : Int)
    (escrow_acct escrow_id : Nat) : Except DErr (Shipment × User × Nat) :=
  if sender.wallet.balance < payment then
    Except.error DErr.InsufficientFunds
  else
    let sender := { sender with wallet := { balance := sender.wallet.balance - payment } }
    let escrow_acct := escrow_acct + payment
    Except.ok
      ({ id := id
         status := ShipmentStatus.Listed
         sender := sender
         carrier := none
         recipient := recipient
         pickup_point := pickup_point
         pickup_datetime := pickup_datetime
         drop_off_point := drop_off_point
         drop_off_datetime := drop_off_datetime
         payment := payment
         insurance := insurance
         items_name := items_name
         quantity := quantity
         sender_key := ""
         carrier_key := ""
         recipient_key := ""
         escrow_id := escrow_id },
       sender, escrow_acct)

/-- `Shipment::accept_shipment`.  Source order: status check; generate the
three one-time keys; set the carrier slot; check the carrier's ledger
balance against the insurance; debit the carrier's wallet; lock the
insurance in escrow by a ledger transfer; set `Accepted`. -/
def Shipment.accept_shipment (w : ShipmentWorld)
    (gen_sender_key gen_carrier_key gen_recipient_key : String) :
    Option DErr × ShipmentWorld :=
  if w.shipment.status ≠ ShipmentStatus.Listed then
    (some DErr.IncorrectState, w)
  else
    let w := { w with shipment := { w.shipment with
                 sender_key := gen_sender_key
                 carrier_key := gen_carrier_key
                 recipient_key := gen_recipient_key
                 carrier := some w.carrier } }
    if w.carrier_acct < w.shipment.insurance then
      (some DErr.InsufficientFunds, w)
    else
      let w := { w with carrier := { w.carrier with
                   wallet := { balance := w.carrier.wallet.balance - w.shipment.insurance } } }
      match DLUToken.transfer w.carrier_acct w.escrow_acct w.shipment.insurance with
      | none => (some DErr.LedgerFailure, w)
      | some (c, e) =>
        (none, { w with
                 carrier_acct := c
                 escrow_acct := e
                 shipment := { w.shipment with status := ShipmentStatus.Accepted } })

/-- `Shipment::complete_shipment`.  Validates the carrier's and the
recipient's keys (the sender's key is never checked here); defensive
escrow-balance check between the two validations; then releases
payment+insurance to the carrier in one transfer; clears all three key
slots; sets `Completed`; marks sender and carrier successful (via
`mark_deal`, as in the source). -/
def Shipment.complete_shipment (w : ShipmentWorld)
    (entered_carrier_key entered_recipient_key : String) :
    Option DErr × ShipmentWorld :=
  if w.shipment.status ≠ ShipmentStatus.Accepted then
    (some DErr.IncorrectState, w)
  else if entered_carrier_key ≠ w.shipment.carrier_key then
    (some DErr.KeyMismatch, w)
  else if w.escrow_acct < w.shipment.payment + w.shipment.insurance then
    (some DErr.InsufficientFunds, w)
  else if entered_recipient_key ≠ w.shipment.recipient_key then
    (some DErr.KeyMismatch, w)
  else
    let total_release := w.shipment.payment + w.shipment.insurance
    match DLUToken.transfer w.escrow_acct w.carrier_acct total_release with
    | none => (some DErr.LedgerFailure, w)
    | some (e, c) =>
      (none, { w with
               escrow_acct := e
               carrier_acct := c
               carrier := ({ w.carrier with
                 wallet := { balance := w.carrier.wallet.balance + total_release } }).mark_deal true
               sender := w.sender.mark_deal true
               shipment := { w.shipment with
                 sender_key := ""
                 carrier_key := ""
                 recipient_key := ""
                 status := ShipmentStatus.Completed } })

/-- `Shipment::fail_shipment`.  Source order: status check; error if the
**carrier-key slot is empty** (the source comments this as "shipment has not
been picked up", although a consumed key is the one that is cleared to the
empty string); validate the sender's key; transfer payment+insurance from
escrow to the penalty sink; clear all key slots; set `Failed`; mark the
carrier failed. -/
def Shipment.fail_shipment (w : ShipmentWorld) (entered_sender_key : String) :
    Option DErr × ShipmentWorld :=
  if w.shipment.status ≠ ShipmentStatus.Accepted then
    (some DErr.IncorrectState, w)
  else if w.shipment.carrier_key = "" then
    (some DErr.OperationNotAllowed, w)
  else if entered_sender_key ≠ w.shipment.sender_key then
    (some DErr.KeyMismatch, w)
  else
    let total_amount := w.shipment.payment + w.shipment.insurance
    match DLUToken.transfer w.escrow_acct w.penalty_acct total_amount with
    | none => (some DErr.LedgerFailure, w)
    | some (e, p) =>
      (none, { w with
               escrow_acct := e
               penalty_acct := p
               carrier := w.carrier.mark_deal false
               shipment := { w.shipment with
                 sender_key := ""
                 carrier_key := ""
                 recipient_key := ""
                 status := ShipmentStatus.Failed } })

/-- `Shipment::expire_shipment`.  Time gate on `drop_off_datetime + 24h`
(failing when `now` is not strictly past it), then status check; release the
payment back to the sender's account and credit the embedded sender
snapshot; release the insurance to the carrier's account; credit the
embedded carrier snapshot (error if unset — after the ledger release); set
`Expired`.  No reputation call. -/
def Shipment.expire_shipment (w : ShipmentWorld) (now : Int) :
    Option DErr × ShipmentWorld :=
  if now ≤ w.shipment.drop_off_datetime + hours24 then
    (some DErr.OperationNotAllowed, w)
  else if w.shipment.status ≠ ShipmentStatus.Accepted then
    (some DErr.IncorrectState, w)
  else
    match DLUToken.transfer w.escrow_acct w.sender_acct w.shipment.payment with
    | none => (some DErr.LedgerFailure, w)
    | some (e1, s1) =>
      let w := { w with
                 escrow_acct := e1
                 sender_acct := s1
                 shipment := { w.shipment with
                   sender := { w.shipment.sender with
                     wallet := { balance := w.shipment.sender.wallet.balance + w.shipment.payment } } } }
      match DLUToken.transfer w.escrow_acct w.carrier_acct w.shipment.insurance with
      | none => (some DErr.LedgerFailure, w)
      | some (e2, c2) =>
        let w := { w with escrow_acct := e2, carrier_acct := c2 }
        match w.shipment.carrier with
        | none => (some DErr.AccountNotFound, w)
        | some c =>
          (none, { w with
                   shipment := { w.shipment with
                     carrier := some { c with
                       wallet := { balance := c.wallet.balance + w.shipment.insurance } }
                     status := ShipmentStatus.Expired } })

/-- `Shipment::cancel_shipment`.  Only from `Listed`; releases the locked
payment from escrow back to the sender's account; clears the sender's key
slot; sets `Canceled`. -/
def Shipment.cancel_shipment (w : ShipmentWorld) : Option DErr × ShipmentWorld :=
  if w.shipment.status ≠ ShipmentStatus.Listed then
    (some DErr.IncorrectState, w)
  else
    match DLUToken.transfer w.escrow_acct w.sender_acct w.shipment.payment with
    | none => (some DErr.LedgerFailure, w)
    | some (e, s) =>
      (none, { w with
               escrow_acct := e
               sender_acct := s
               shipment := { w.shipment with
                 sender_key := ""
                 status := ShipmentStatus.Canceled } })

/-- `Shipment::update_status`: sets the status unconditionally. -/
def Shipment.update_status (s : Shipment) (new_status : ShipmentStatus) : Shipment :=
  { s with status := new_status }

/-- `onetimekeys.rs`: the pair of keys of a deal. -/
structure DealKeys where
  seller_key : String
  buyer_key : String
  deriving DecidableEq, Repr

/-- `onetimekeys.rs`: the three keys of a shipment. -/
structure ShipmentKeys where
  sender_key : String
  carrier_key : String
  recipient_key : String
  deriving DecidableEq, Repr

/-- `KeyManager`: its two `HashMap<u64, _>`s become association lists with
at most one entry per id (insert replaces), and the `HashMap<String, bool>`
of used keys becomes the list of its keys (every stored value is `true`). -/
structure KeyManager where
  deal_keys : List (Nat × DealKeys)
  shipment_keys : List (Nat × ShipmentKeys)
  used_keys : List String
  deriving DecidableEq, Repr

/-- `KeyManager::new`. -/
def KeyManager.new : KeyManager :=
  { deal_keys := [], shipment_keys := [], used_keys := [] }

/-- `KeyManager::generate_deal_keys`: store a fresh pair of keys for
`deal_id`, replacing any previous entry (`HashMap::insert`).  The two
freshly drawn UUID strings are passed in as arguments. -/
def KeyManager.generate_deal_keys (km : KeyManager) (deal_id : Nat)
    (seller_key buyer_key : String) : KeyManager :=
  { km with deal_keys :=
      (deal_id, { seller_key := seller_key, buyer_key := buyer_key }) ::
        km.deal_keys.filter (fun p => p.1 != deal_id) }

/-- `KeyManager::generate_shipment_keys`, as for deals. -/
def KeyManager.generate_shipment_keys (km : KeyManager) (shipment_id : Nat)
    (sender_key carrier_key recipient_key : String) : KeyManager :=
  { km with shipment_keys :=
      (shipment_id,
        { sender_key := sender_key, carrier_key := carrier_key,
          recipient_key := recipient_key }) ::
        km.shipment_keys.filter (fun p => p.1 != shipment_id) }

/-- The validity scan of `KeyManager::validate_and_use_key`: does any stored
slot (of any deal or shipment) equal `key`? -/
def KeyManager.slot_matches (km : KeyManager) (key : String) : Bool :=
  km.deal_keys.any (fun p => p.2.seller_key == key || p.2.buyer_key == key) ||
    km.shipment_keys.any (fun p =>
      p.2.sender_key == key || p.2.carrier_key == key || p.2.recipient_key == key)

/-- Clear every slot of a deal entry that equals `key`
(`String::clear` ↦ `""`). -/
def DealKeys.clear_matching (k : DealKeys) (key : String) : DealKeys :=
  { seller_key := if k.seller_key == key then "" else k.seller_key
    buyer_key := if k.buyer_key == key then "" else k.buyer_key }

/-- Clear every slot of a shipment entry that equals `key`. -/
def ShipmentKeys.clear_matching (k : ShipmentKeys) (key : String) : ShipmentKeys :=
  { sender_key := if k.sender_key == key then "" else k.sender_key
    carrier_key := if k.carrier_key == key then "" else k.carrier_key
    recipient_key := if k.recipient_key == key then "" else k.recipient_key }

/-- `KeyManager::validate_and_use_key`.  An already-used key is rejected at
once with no state change; otherwise the key is valid iff some stored slot
matches it, and on success it is added to the used set and every matching
slot is cleared. -/
def KeyManager.validate_and_use_key (km : KeyManager) (key : String) :
    Bool × KeyManager :=
  if km.used_keys.contains key then
    (false, km)
  else
    if km.slot_matches key then
      (true,
        { km with
          used_keys := key :: km.used_keys
          deal_keys := km.deal_keys.map (fun p => (p.1, p.2.clear_matching key))
          shipment_keys :=
            km.shipment_keys.map (fun p => (p.1, p.2.clear_matching key)) })
    else
      (false, km)

/-- The external operations of the key registry, for stating properties
over arbitrary call sequences. -/
inductive KMOp where
  | genDeal (deal_id : Nat) (seller_key buyer_key : String)
  | genShipment (shipment_id : Nat) (sender_key carrier_key recipient_key : String)
  | validate (key : String)
  deriving DecidableEq, Repr

/-- Apply one registry operation (the Boolean result of a validation is
discarded; only the state matters here). -/
def KMOp.apply (op : KMOp) (km : KeyManager) : KeyManager :=
  match op with
  | KMOp.genDeal deal_id sk bk => km.generate_deal_keys deal_id sk bk
  | KMOp.genShipment shipment_id s c r => km.generate_shipment_keys shipment_id s c r
  | KMOp.validate key => (km.validate_and_use_key key).2

/-- Run a sequence of registry operations from a state. -/
def KeyManager.run (km : KeyManager) (ops : List KMOp) : KeyManager :=
  ops.foldl (fun s op => op.apply s) km

/-! ## Concrete test fixtures

A fresh user with a given balance, and a concrete offer/request lifecycle
built by running the listing and acceptance operations themselves, so every
state used in a counterexample below is reachable by the program. -/

/-- A fresh user holding `balance` DLU. -/
def mkUser (balance : Nat) : User :=
  { wallet := { balance := balance }
    status := UserStatus.New
    total_deals := 0
    successful_deals := 0
    failed_deals := 0
    total_shipments := 0
    successful_shipments := 0
    failed_shipments := 0 }

/-- A concrete meeting location. -/
def loc : Location := { country := "c", town := "t", address := "a" }

/-- The offer created by `list_offer` with payment 100 from a seller holding
exactly 100. -/
def offerListed : Offer :=
  { id := 1
    status := OfferStatus.Listed
    seller := mkUser 0
    buyer := none
    meeting_point := loc
    meeting_datetime := 0
    payment := 100
    insurance := 100
    goodsorservice_name := "g"
    goodsorservice_description := "d"
    seller_key := ""
    buyer_key := ""
    escrow_id := 7 }

/-- `offerListed` really is the record `list_offer` produces (and the
listing locks 100 in escrow, leaving the seller with 0). -/
theorem offerListed_from_list :
    Offer.list_offer 1 (mkUser 100) "g" "d" 100 loc 0 0 7 =
      Except.ok (offerListed, mkUser 0, 100) := by
  rfl

/-- The world just after the listing: escrow holds the seller's 100; the
buyer owns 200 on the ledger and in their wallet. -/
def wListed : OfferWorld :=
  { offer := offerListed
    seller := mkUser 0
    buyer := mkUser 200
    seller_acct := 0
    buyer_acct := 200
    escrow_acct := 100
    penalty_acct := 0 }

/-- The world after the buyer accepts (keys "sk"/"bk" drawn). -/
def wAccepted : OfferWorld := (Offer.accept_offer wListed "sk" "bk").2

/-- The acceptance from `wListed` succeeds, so `wAccepted` is reachable. -/
theorem wAccepted_reachable : (Offer.accept_offer wListed "sk" "bk").1 = none := by
  rfl

/-- The request created by `list_request` with payment 100 from a buyer
holding exactly 200 (payment + insurance are both locked). -/
def requestListed : Request :=
  { id := 2
    status := RequestStatus.Listed
    buyer := mkUser 0
    seller := none
    meeting_point := loc
    meeting_datetime := 0
    payment := 100
    insurance := 100
    goodsorservice_name := "g"
    goodsorservice_description := "d"
    buyer_key := ""
    seller_key := ""
    escrow_id := 7 }

/-- `requestListed` really is the record `list_request` produces (and the
listing locks 200 in escrow, leaving the buyer with 0). -/
theorem requestListed_from_list :
    Request.list_request 2 (mkUser 200) "g" "d" 100 loc 0 0 7 =
      Except.ok (requestListed, mkUser 0, 200) := by
  rfl

/-- The world just after the request listing: escrow holds the buyer's 200. -/
def rwListed : RequestWorld :=
  { request := requestListed
    buyer := mkUser 0
    seller := mkUser 0
    buyer_acct := 0
    seller_acct := 0
    escrow_acct := 200
    penalty_acct := 0 }

/-! ## Claims -/

/-- **C1** (status: code_bug).  The claim says `complete` is all-or-nothing:
every required secret is validated before any fund moves, and on a mismatch
`KeyMismatch` is returned with no fund movement.  The code violates this:
from the reachable accepted world `wAccepted` (buyer key "bk", seller key
"sk", payment 100 in escrow of 300), calling `complete_offer` with the
correct buyer key but a wrong seller key returns `KeyMismatch` — as the
claim says — yet the payment of 100 has already been released from escrow
to the seller's account and credited to the seller's wallet, while the
status stays `Accepted` and no slot is consumed. -/
theorem C1_complete_moves_funds_before_full_validation :
    (Offer.complete_offer wAccepted "bk" "wrong").1 = some DErr.KeyMismatch ∧
    (Offer.complete_offer wAccepted "bk" "wrong").2.seller_acct =
      wAccepted.seller_acct + 100 ∧
    (Offer.complete_offer wAccepted "bk" "wrong").2.escrow_acct = 200 ∧
    wAccepted.escrow_acct = 300 ∧
    (Offer.complete_offer wAccepted "bk" "wrong").2.seller.wallet.balance =
      wAccepted.seller.wallet.balance + 100 ∧
    (Offer.complete_offer wAccepted "bk" "wrong").2.offer.status =
      OfferStatus.Accepted ∧
    (Offer.complete_offer wAccepted "bk" "wrong").2.offer.buyer_key = "bk" ∧
    (Offer.complete_offer wAccepted "bk" "wrong").2.offer.seller_key = "sk" := by
  exact ⟨rfl, rfl, rfl, rfl, rfl, rfl, rfl, rfl⟩

/-- **C2** (status: code_bug).  The claim says custody value attributable to
a deal is zero in any terminal state.  The code violates this in
`cancel_request`: the listing locked payment+insurance = 200 in escrow
(`requestListed_from_list`), cancelling succeeds and moves the request to
the terminal `Canceled` state, yet it releases only the insurance (100), so
the custody account still holds 100 ≠ 0 for a terminal deal. -/
theorem C2_canceled_request_leaves_custody_nonzero :
    rwListed.escrow_acct = 200 ∧
    (Request.cancel_request rwListed).1 = none ∧
    (Request.cancel_request rwListed).2.request.status = RequestStatus.Canceled ∧
    (Request.cancel_request rwListed).2.escrow_acct = 100 ∧
    (100 : Nat) ≠ 0 := by
  refine ⟨rfl, rfl, rfl, rfl, ?_⟩
  decide

/-- A key already in the used set is rejected immediately, with no state
change (`validate_and_use_key`, first branch). -/
theorem validate_of_used (km : KeyManager) (k : String)
    (h : km.used_keys.contains k = true) :
    km.validate_and_use_key k = (false, km) := by
  unfold KeyManager.validate_and_use_key
  rw [h]
  rfl

/-- A successful validation records the key in the used set. -/
theorem used_after_success (km : KeyManager) (k : String)
    (h : (km.validate_and_use_key k).1 = true) :
    ((km.validate_and_use_key k).2).used_keys.contains k = true := by
  unfold KeyManager.validate_and_use_key at h ⊢
  by_cases hc : km.used_keys.contains k
  · rw [hc] at h
    simp at h
  · rw [Bool.not_eq_true] at hc
    rw [hc] at h ⊢
    by_cases hv : km.slot_matches k
    · rw [hv]
      simp [List.contains_cons]
    · rw [Bool.not_eq_true] at hv
      rw [hv] at h
      simp at h

/-- Membership in the used set is preserved by every registry operation:
key generation never touches the used set, and validation only ever adds
to it. -/
theorem used_mono_apply (op : KMOp) (km : KeyManager) (k : String)
    (h : km.used_keys.contains k = true) :
    ((op.apply km).used_keys.contains k) = true := by
  cases op with
  | genDeal deal_id sk bk => exact h
  | genShipment shipment_id s c r => exact h
  | validate key =>
    show (((km.validate_and_use_key key).2).used_keys.contains k) = true
    unfold KeyManager.validate_and_use_key
    by_cases hc : km.used_keys.contains key
    · rw [hc]
      exact h
    · rw [Bool.not_eq_true] at hc
      rw [hc]
      by_cases hv : km.slot_matches key
      · rw [hv]
        have hm : k ∈ km.used_keys := by simpa using h
        simp [List.contains_cons, hm]
      · rw [Bool.not_eq_true] at hv
        rw [hv]
        exact h

/-- Membership in the used set is preserved by any sequence of registry
operations. -/
theorem used_mono_run (ops : List KMOp) (km : KeyManager) (k : String)
    (h : km.used_keys.contains k = true) :
    ((km.run ops).used_keys.contains k) = true := by
  induction ops generalizing km with
  | nil => exact h
  | cons op rest ih => exact ih (op.apply km) (used_mono_apply op km k h)

/-- **C4** (status: confirmed).  Once `validate_and_use_key` has returned
success for a secret, every later call with the same secret — after any
further sequence of key generations and validations — returns `false` and
leaves the registry state (used set and all key slots) exactly unchanged:
the first call's effect is neither reversed nor repeated. -/
theorem C4_consumed_secret_never_validates_again (km : KeyManager)
    (k : String) (ops : List KMOp)
    (h : (km.validate_and_use_key k).1 = true) :
    KeyManager.validate_and_use_key
        (KeyManager.run (km.validate_and_use_key k).2 ops) k =
      (false, KeyManager.run (km.validate_and_use_key k).2 ops) :=
  validate_of_used _ k
    (used_mono_run ops (km.validate_and_use_key k).2 k (used_after_success km k h))

/-- Witness for C4 at a concrete registry: generate keys "a"/"b" for deal 0,
validate "a" successfully, run one more generation, and observe the second
validation of "a" rejected with the state unchanged. -/
theorem C4_consumed_secret_never_validates_again_witness :
    ((KeyManager.new.generate_deal_keys 0 "a" "b").validate_and_use_key "a").1
        = true ∧
    KeyManager.validate_and_use_key
        (KeyManager.run
          ((KeyManager.new.generate_deal_keys 0 "a" "b").validate_and_use_key "a").2
          [KMOp.genDeal 1 "c" "d"]) "a" =
      (false,
        KeyManager.run
          ((KeyManager.new.generate_deal_keys 0 "a" "b").validate_and_use_key "a").2
          [KMOp.genDeal 1 "c" "d"]) :=
  ⟨by decide,
   C4_consumed_secret_never_validates_again
     (KeyManager.new.generate_deal_keys 0 "a" "b") "a" [KMOp.genDeal 1 "c" "d"]
     (by decide)⟩

/-- **C10** (status: confirmed).  In any registry state where some stored
slot equals the empty string — which is exactly what a consumed slot is
cleared to — and the empty string itself has not been recorded as used,
`validate_and_use_key ""` succeeds, matching the cleared slot, and inserts
the empty string into the used set. -/
theorem C10_empty_string_validates_after_consumption (km : KeyManager)
    (h1 : km.slot_matches "" = true)
    (h2 : km.used_keys.contains "" = false) :
    (km.validate_and_use_key "").1 = true ∧
    ((km.validate_and_use_key "").2).used_keys.contains "" = true := by
  unfold KeyManager.validate_and_use_key
  rw [h2, h1]
  simp [List.contains_cons]

/-- Witness for C10 at a reachable registry state: starting from the empty
registry, generate keys "a"/"b" for deal 0 and validate "a"; the seller
slot is now cleared to "", the empty string is not yet used, and validating
the empty string succeeds and consumes it. -/
theorem C10_empty_string_validates_after_consumption_witness :
    (KeyManager.run KeyManager.new
        [KMOp.genDeal 0 "a" "b", KMOp.validate "a"]).slot_matches "" = true ∧
    (KeyManager.run KeyManager.new
        [KMOp.genDeal 0 "a" "b", KMOp.validate "a"]).used_keys.contains "" = false ∧
    ((KeyManager.run KeyManager.new
        [KMOp.genDeal 0 "a" "b", KMOp.validate "a"]).validate_and_use_key "").1
      = true ∧
    (((KeyManager.run KeyManager.new
        [KMOp.genDeal 0 "a" "b", KMOp.validate "a"]).validate_and_use_key "").2).used_keys.contains ""
      = true := by
  refine ⟨by decide, by decide, ?_, ?_⟩
  · exact (C10_empty_string_validates_after_consumption _ (by decide) (by decide)).1
  · exact (C10_empty_string_validates_after_consumption _ (by decide) (by decide)).2

/-- **C5** (status: code_bug).  The claim says `cancel` refunds the
initiator the full amount locked at list time (payment+insurance = 200 for
the requester-initiated deal `requestListed`) and refunds only the
initiator.  The code instead releases only the insurance (100) and credits
it to the **seller's** account — a listed request has no seller — while the
initiating buyer's account receives nothing; the deal does move to
`Canceled` and the reputation counters are untouched. -/
theorem C5_cancel_request_misroutes_refund :
    (Request.cancel_request rwListed).1 = none ∧
    (Request.cancel_request rwListed).2.seller_acct = rwListed.seller_acct + 100 ∧
    (Request.cancel_request rwListed).2.buyer_acct = rwListed.buyer_acct ∧
    (Request.cancel_request rwListed).2.escrow_acct = 100 ∧
    requestListed.payment + requestListed.insurance = 200 ∧
    (Request.cancel_request rwListed).2.request.status = RequestStatus.Canceled := by
  exact ⟨rfl, rfl, rfl, rfl, rfl, rfl⟩

/-- The shipment created by `list_shipment` with payment 5 and an explicit
insurance of 3 from a sender holding exactly 5. -/
def shipmentListed : Shipment :=
  { id := 3
    status := ShipmentStatus.Listed
    sender := mkUser 0
    carrier := none
    recipient := mkUser 0
    pickup_point := loc
    pickup_datetime := 0
    drop_off_point := loc
    drop_off_datetime := 0
    payment := 5
    insurance := 3
    items_name := "i"
    quantity := 1
    sender_key := ""
    carrier_key := ""
    recipient_key := ""
    escrow_id := 7 }

/-- `shipmentListed` really is the record `list_shipment` produces. -/
theorem shipmentListed_from_list :
    Shipment.list_shipment 3 (mkUser 5) (mkUser 0) "i" 1 5 3 loc 0 loc 0 0 7 =
      Except.ok (shipmentListed, mkUser 0, 5) := by
  rfl

/-- **C9 counterexample** (status: corrected).  The claim says every
successful listing of every deal kind satisfies insurance = payment.  But
`list_shipment` takes the insurance as an explicit argument: listing a
shipment with payment 5 and insurance 3 succeeds and creates a record with
insurance 3 ≠ 5. -/
theorem C9_shipment_insurance_differs_from_payment :
    (Shipment.list_shipment 3 (mkUser 5) (mkUser 0) "i" 1 5 3 loc 0 loc 0 0 7).map
        (fun t => (t.1.payment, t.1.insurance)) = Except.ok (5, 3) ∧
    (5 : Nat) ≠ 3 := by
  refine ⟨rfl, ?_⟩
  decide

/-- **C9 amended** (status: corrected).  Every successful `list_offer` or
`list_request` creates a record with insurance equal to payment; a
successful `list_shipment` creates a record whose insurance is exactly the
caller-supplied insurance argument, unconstrained by the payment. -/
theorem C9_amended_insurance_at_listing :
    (∀ (id : Nat) (u : User) (n d : String) (payment : Nat) (mp : Location)
        (mdt : Int) (ea ei : Nat) (res : Offer × User × Nat),
        Offer.list_offer id u n d payment mp mdt ea ei = Except.ok res →
        res.1.insurance = res.1.payment) ∧
    (∀ (id : Nat) (u : User) (n d : String) (payment : Nat) (mp : Location)
        (mdt : Int) (ea ei : Nat) (res : Request × User × Nat),
        Request.list_request id u n d payment mp mdt ea ei = Except.ok res →
        res.1.insurance = res.1.payment) ∧
    (∀ (id : Nat) (u v : User) (n : String) (q payment insurance : Nat)
        (pp : Location) (pt : Int) (dp : Location) (dt : Int) (ea ei : Nat)
        (res : Shipment × User × Nat),
        Shipment.list_shipment id u v n q payment insurance pp pt dp dt ea ei =
          Except.ok res →
        res.1.insurance = insurance ∧ res.1.payment = payment) := by
  refine ⟨?_, ?_, ?_⟩
  · intro id u n d payment mp mdt ea ei res h
    simp only [Offer.list_offer] at h
    split at h
    · cases h
    · injection h with h
      subst h
      rfl
  · intro id u n d payment mp mdt ea ei res h
    simp only [Request.list_request] at h
    split at h
    · cases h
    · injection h with h
      subst h
      rfl
  · intro id u v n q payment insurance pp pt dp dt ea ei res h
    simp only [Shipment.list_shipment] at h
    split at h
    · cases h
    · injection h with h
      subst h
      exact ⟨rfl, rfl⟩

/-- Witness for the amended C9, applying it to the three concrete listings
built above. -/
theorem C9_amended_insurance_at_listing_witness :
    offerListed.insurance = offerListed.payment ∧
    requestListed.insurance = requestListed.payment ∧
    shipmentListed.insurance = 3 ∧ shipmentListed.payment = 5 :=
  ⟨C9_amended_insurance_at_listing.1 1 (mkUser 100) "g" "d" 100 loc 0 0 7
      (offerListed, mkUser 0, 100) offerListed_from_list,
   C9_amended_insurance_at_listing.2.1 2 (mkUser 200) "g" "d" 100 loc 0 0 7
      (requestListed, mkUser 0, 200) requestListed_from_list,
   C9_amended_insurance_at_listing.2.2 3 (mkUser 5) (mkUser 0) "i" 1 5 3 loc 0
      loc 0 0 7 (shipmentListed, mkUser 0, 5) shipmentListed_from_list⟩

/-! ## Lifecycle-graph lemmas (per operation) -/

/-- `accept_offer` from any non-`Listed` state: `IncorrectState`, nothing
changed. -/
theorem accept_offer_wrong_state (w : OfferWorld) (g1 g2 : String)
    (h : w.offer.status ≠ OfferStatus.Listed) :
    Offer.accept_offer w g1 g2 = (some DErr.IncorrectState, w) := by
  simp [Offer.accept_offer, h]

/-- `accept_offer` succeeds only from `Listed` and then lands in `Accepted`;
on any error the status is unchanged. -/
theorem accept_offer_edges (w : OfferWorld) (g1 g2 : String) :
    ((Offer.accept_offer w g1 g2).1 = none →
      w.offer.status = OfferStatus.Listed ∧
      (Offer.accept_offer w g1 g2).2.offer.status = OfferStatus.Accepted) ∧
    ((Offer.accept_offer w g1 g2).1 ≠ none →
      (Offer.accept_offer w g1 g2).2.offer.status = w.offer.status) := by
  simp only [Offer.accept_offer]
  split
  · simp_all
  · split
    · simp_all
    · split <;> simp_all

/-- `complete_offer` from any non-`Accepted` state: `IncorrectState`,
nothing changed. -/
theorem complete_offer_wrong_state (w : OfferWorld) (k1 k2 : String)
    (h : w.offer.status ≠ OfferStatus.Accepted) :
    Offer.complete_offer w k1 k2 = (some DErr.IncorrectState, w) := by
  simp [Offer.complete_offer, h]

/-- `complete_offer` succeeds only from `Accepted` and then lands in
`Completed`; on any error the status is unchanged. -/
theorem complete_offer_edges (w : OfferWorld) (k1 k2 : String) :
    ((Offer.complete_offer w k1 k2).1 = none →
      w.offer.status = OfferStatus.Accepted ∧
      (Offer.complete_offer w k1 k2).2.offer.status = OfferStatus.Completed) ∧
    ((Offer.complete_offer w k1 k2).1 ≠ none →
      (Offer.complete_offer w k1 k2).2.offer.status = w.offer.status) := by
  simp only [Offer.complete_offer]
  split
  · simp_all
  · split
    · simp_all
    · split
      · simp_all
      · split
        · simp_all
        · split
          · simp_all
          · split
            · simp_all
            · split <;> simp_all

/-- `fail_offer` from any non-`Accepted` state: `IncorrectState`, nothing
changed. -/
theorem fail_offer_wrong_state (w : OfferWorld) (k : String)
    (h : w.offer.status ≠ OfferStatus.Accepted) :
    Offer.fail_offer w k = (some DErr.IncorrectState, w) := by
  simp [Offer.fail_offer, h]

/-- `fail_offer` succeeds only from `Accepted` and then lands in `Failed`;
on any error the status is unchanged. -/
theorem fail_offer_edges (w : OfferWorld) (k : String) :
    ((Offer.fail_offer w k).1 = none →
      w.offer.status = OfferStatus.Accepted ∧
      (Offer.fail_offer w k).2.offer.status = OfferStatus.Failed) ∧
    ((Offer.fail_offer w k).1 ≠ none →
      (Offer.fail_offer w k).2.offer.status = w.offer.status) := by
  simp only [Offer.fail_offer]
  split
  · simp_all
  · split
    · simp_all
    · split <;> simp_all

/-- `expire_offer` before the grace instant: `OperationNotAllowed`
regardless of the state, nothing changed; at/after it from a non-`Accepted`
state: `IncorrectState`, nothing changed. -/
theorem expire_offer_wrong_state (w : OfferWorld) (now : Int) :
    (now ≤ w.offer.meeting_datetime + hours24 →
      Offer.expire_offer w now = (some DErr.OperationNotAllowed, w)) ∧
    (¬ now ≤ w.offer.meeting_datetime + hours24 →
      w.offer.status ≠ OfferStatus.Accepted →
      Offer.expire_offer w now = (some DErr.IncorrectState, w)) := by
  constructor
  · intro h
    simp [Offer.expire_offer, h]
  · intro h1 h2
    simp [Offer.expire_offer, h1, h2]

/-- `expire_offer` succeeds only from `Accepted` and then lands in
`Expired`; on any error the status is unchanged. -/
theorem expire_offer_edges (w : OfferWorld) (now : Int) :
    ((Offer.expire_offer w now).1 = none →
      w.offer.status = OfferStatus.Accepted ∧
      (Offer.expire_offer w now).2.offer.status = OfferStatus.Expired) ∧
    ((Offer.expire_offer w now).1 ≠ none →
      (Offer.expire_offer w now).2.offer.status = w.offer.status) := by
  simp only [Offer.expire_offer]
  split
  · simp_all
  · split
    · simp_all
    · split
      · simp_all
      · split
        · simp_all
        · split <;> simp_all

/-- `cancel_offer` from any non-`Listed` state: `IncorrectState`, nothing
changed. -/
theorem cancel_offer_wrong_state (w : OfferWorld)
    (h : w.offer.status ≠ OfferStatus.Listed) :
    Offer.cancel_offer w = (some DErr.IncorrectState, w) := by
  simp [Offer.cancel_offer, h]

/-- `cancel_offer` succeeds only from `Listed` and then lands in `Canceled`;
on any error the status is unchanged. -/
theorem cancel_offer_edges (w : OfferWorld) :
    ((Offer.cancel_offer w).1 = none →
      w.offer.status = OfferStatus.Listed ∧
      (Offer.cancel_offer w).2.offer.status = OfferStatus.Canceled) ∧
    ((Offer.cancel_offer w).1 ≠ none →
      (Offer.cancel_offer w).2.offer.status = w.offer.status) := by
  simp only [Offer.cancel_offer]
  split
  · simp_all
  · split <;> simp_all

/-- `accept_request` from any non-`Listed` state: `IncorrectState`,
nothing changed. -/
theorem accept_request_wrong_state (w : RequestWorld) (g1 g2 : String)
    (h : w.request.status ≠ RequestStatus.Listed) :
    Request.accept_request w g1 g2 = (some DErr.IncorrectState, w) := by
  simp [Request.accept_request, h]

/-- `accept_request` succeeds only from `Listed` and then lands in
`Accepted`; on any error the status is unchanged. -/
theorem accept_request_edges (w : RequestWorld) (g1 g2 : String) :
    ((Request.accept_request w g1 g2).1 = none →
      w.request.status = RequestStatus.Listed ∧
      (Request.accept_request w g1 g2).2.request.status = RequestStatus.Accepted) ∧
    ((Request.accept_request w g1 g2).1 ≠ none →
      (Request.accept_request w g1 g2).2.request.status = w.request.status) := by
  simp only [Request.accept_request]
  split
  · simp_all
  · split <;> simp_all

/-- `complete_request` from any non-`Accepted` state: `IncorrectState`,
nothing changed. -/
theorem complete_request_wrong_state (w : RequestWorld) (k1 k2 : String)
    (h : w.request.status ≠ RequestStatus.Accepted) :
    Request.complete_request w k1 k2 = (some DErr.IncorrectState, w) := by
  simp [Request.complete_request, h]

/-- `complete_request` succeeds only from `Accepted` and then lands in
`Completed`; on any error the status is unchanged. -/
theorem complete_request_edges (w : RequestWorld) (k1 k2 : String) :
    ((Request.complete_request w k1 k2).1 = none →
      w.request.status = RequestStatus.Accepted ∧
      (Request.complete_request w k1 k2).2.request.status =
        RequestStatus.Completed) ∧
    ((Request.complete_request w k1 k2).1 ≠ none →
      (Request.complete_request w k1 k2).2.request.status = w.request.status) := by
  simp only [Request.complete_request]
  split
  · simp_all
  · split
    · simp_all
    · split
      · simp_all
      · split
        · simp_all
        · split
          · simp_all
          · split
            · simp_all
            · split <;> simp_all

/-- `fail_request` from any non-`Accepted` state: `IncorrectState`, nothing
changed. -/
theorem fail_request_wrong_state (w : RequestWorld) (k : String)
    (h : w.request.status ≠ RequestStatus.Accepted) :
    Request.fail_request w k = (some DErr.IncorrectState, w) := by
  simp [Request.fail_request, h]

/-- `fail_request` succeeds only from `Accepted` and then lands in `Failed`;
on any error the status is unchanged. -/
theorem fail_request_edges (w : RequestWorld) (k : String) :
    ((Request.fail_request w k).1 = none →
      w.request.status = RequestStatus.Accepted ∧
      (Request.fail_request w k).2.request.status = RequestStatus.Failed) ∧
    ((Request.fail_request w k).1 ≠ none →
      (Request.fail_request w k).2.request.status = w.request.status) := by
  simp only [Request.fail_request]
  split
  · simp_all
  · split
    · simp_all
    · split <;> simp_all

/-- `cancel_request` from any non-`Listed` state: `IncorrectState`, nothing
changed. -/
theorem cancel_request_wrong_state (w : RequestWorld)
    (h : w.request.status ≠ RequestStatus.Listed) :
    Request.cancel_request w = (some DErr.IncorrectState, w) := by
  simp [Request.cancel_request, h]

/-- `cancel_request` succeeds only from `Listed` and then lands in
`Canceled`; on any error the status is unchanged. -/
theorem cancel_request_edges (w : RequestWorld) :
    ((Request.cancel_request w).1 = none →
      w.request.status = RequestStatus.Listed ∧
      (Request.cancel_request w).2.request.status = RequestStatus.Canceled) ∧
    ((Request.cancel_request w).1 ≠ none →
      (Request.cancel_request w).2.request.status = w.request.status) := by
  simp only [Request.cancel_request]
  split
  · simp_all
  · split <;> simp_all

/-- `accept_shipment` from any non-`Listed` state: `IncorrectState`,
nothing changed. -/
theorem accept_shipment_wrong_state (w : ShipmentWorld) (g1 g2 g3 : String)
    (h : w.shipment.status ≠ ShipmentStatus.Listed) :
    Shipment.accept_shipment w g1 g2 g3 = (some DErr.IncorrectState, w) := by
  simp [Shipment.accept_shipment, h]

/-- `accept_shipment` succeeds only from `Listed` and then lands in
`Accepted`; on any error the status is unchanged. -/
theorem accept_shipment_edges (w : ShipmentWorld) (g1 g2 g3 : String) :
    ((Shipment.accept_shipment w g1 g2 g3).1 = none →
      w.shipment.status = ShipmentStatus.Listed ∧
      (Shipment.accept_shipment w g1 g2 g3).2.shipment.status = ShipmentStatus.Accepted) ∧
    ((Shipment.accept_shipment w g1 g2 g3).1 ≠ none →
      (Shipment.accept_shipment w g1 g2 g3).2.shipment.status = w.shipment.status) := by
  simp only [Shipment.accept_shipment]
  split
  · simp_all
  · split
    · simp_all
    · split <;> simp_all

/-- `complete_shipment` from any non-`Accepted` state: `IncorrectState`,
nothing changed. -/
theorem complete_shipment_wrong_state (w : ShipmentWorld) (k1 k2 : String)
    (h : w.shipment.status ≠ ShipmentStatus.Accepted) :
    Shipment.complete_shipment w k1 k2 = (some DErr.IncorrectState, w) := by
  simp [Shipment.complete_shipment, h]

/-- `complete_shipment` succeeds only from `Accepted` and then lands in
`Completed`; on any error the status is unchanged. -/
theorem complete_shipment_edges (w : ShipmentWorld) (k1 k2 : String) :
    ((Shipment.complete_shipment w k1 k2).1 = none →
      w.shipment.status = ShipmentStatus.Accepted ∧
      (Shipment.complete_shipment w k1 k2).2.shipment.status = ShipmentStatus.Completed) ∧
    ((Shipment.complete_shipment w k1 k2).1 ≠ none →
      (Shipment.complete_shipment w k1 k2).2.shipment.status = w.shipment.status) := by
  simp only [Shipment.complete_shipment]
  split
  · simp_all
  · split
    · simp_all
    · split
      · simp_all
      · split
        · simp_all
        · split <;> simp_all

/-- `fail_shipment` from any non-`Accepted` state: `IncorrectState`,
nothing changed. -/
theorem fail_shipment_wrong_state (w : ShipmentWorld) (k : String)
    (h : w.shipment.status ≠ ShipmentStatus.Accepted) :
    Shipment.fail_shipment w k = (some DErr.IncorrectState, w) := by
  simp [Shipment.fail_shipment, h]

/-- `fail_shipment` succeeds only from `Accepted` and then lands in
`Failed`; on any error the status is unchanged. -/
theorem fail_shipment_edges (w : ShipmentWorld) (k : String) :
    ((Shipment.fail_shipment w k).1 = none →
      w.shipment.status = ShipmentStatus.Accepted ∧
      (Shipment.fail_shipment w k).2.shipment.status = ShipmentStatus.Failed) ∧
    ((Shipment.fail_shipment w k).1 ≠ none →
      (Shipment.fail_shipment w k).2.shipment.status = w.shipment.status) := by
  simp only [Shipment.fail_shipment]
  split
  · simp_all
  · split
    · simp_all
    · split
      · simp_all
      · split <;> simp_all

/-- `expire_shipment` before the grace instant: `OperationNotAllowed`
regardless of the state, nothing changed; at/after it from a non-`Accepted`
state: `IncorrectState`, nothing changed. -/
theorem expire_shipment_wrong_state (w : ShipmentWorld) (now : Int) :
    (now ≤ w.shipment.drop_off_datetime + hours24 →
      Shipment.expire_shipment w now = (some DErr.OperationNotAllowed, w)) ∧
    (¬ now ≤ w.shipment.drop_off_datetime + hours24 →
      w.shipment.status ≠ ShipmentStatus.Accepted →
      Shipment.expire_shipment w now = (some DErr.IncorrectState, w)) := by
  constructor
  · intro h
    simp [Shipment.expire_shipment, h]
  · intro h1 h2
    simp [Shipment.expire_shipment, h1, h2]

/-- `expire_shipment` succeeds only from `Accepted` and then lands in
`Expired`; on any error the status is unchanged. -/
theorem expire_shipment_edges (w : ShipmentWorld) (now : Int) :
    ((Shipment.expire_shipment w now).1 = none →
      w.shipment.status = ShipmentStatus.Accepted ∧
      (Shipment.expire_shipment w now).2.shipment.status = ShipmentStatus.Expired) ∧
    ((Shipment.expire_shipment w now).1 ≠ none →
      (Shipment.expire_shipment w now).2.shipment.status = w.shipment.status) := by
  simp only [Shipment.expire_shipment]
  split
  · simp_all
  · split
    · simp_all
    · split
      · simp_all
      · split
        · simp_all
        · split <;> simp_all

/-- `cancel_shipment` from any non-`Listed` state: `IncorrectState`,
nothing changed. -/
theorem cancel_shipment_wrong_state (w : ShipmentWorld)
    (h : w.shipment.status ≠ ShipmentStatus.Listed) :
    Shipment.cancel_shipment w = (some DErr.IncorrectState, w) := by
  simp [Shipment.cancel_shipment, h]

/-- `cancel_shipment` succeeds only from `Listed` and then lands in
`Canceled`; on any error the status is unchanged. -/
theorem cancel_shipment_edges (w : ShipmentWorld) :
    ((Shipment.cancel_shipment w).1 = none →
      w.shipment.status = ShipmentStatus.Listed ∧
      (Shipment.cancel_shipment w).2.shipment.status = ShipmentStatus.Canceled) ∧
    ((Shipment.cancel_shipment w).1 ≠ none →
      (Shipment.cancel_shipment w).2.shipment.status = w.shipment.status) := by
  simp only [Shipment.cancel_shipment]
  split
  · simp_all
  · split <;> simp_all

/-- The world after the happy-path completion of `wAccepted` (both correct
keys presented). -/
def wCompleted : OfferWorld := (Offer.complete_offer wAccepted "bk" "sk").2

/-- The completion from `wAccepted` succeeds, so `wCompleted` is reachable. -/
theorem wCompleted_reachable : (Offer.complete_offer wAccepted "bk" "sk").1 = none := by
  rfl

/-- **C3 counterexample** (status: corrected).  The claim says the status
only ever moves along the lifecycle edges and no other status change is
possible.  But `update_status` is an operation of the record that sets any
status unconditionally: applied to the reachable terminal record
`wCompleted.offer` (status `Completed`) it moves the status back to
`Listed`, an edge not in the graph, with no error. -/
theorem C3_update_status_leaves_lifecycle_graph :
    wCompleted.offer.status = OfferStatus.Completed ∧
    (Offer.update_status wCompleted.offer OfferStatus.Listed).status =
      OfferStatus.Listed := by
  exact ⟨rfl, rfl⟩

/-- **C3 amended** (status: corrected).  Restricted to the lifecycle
operations (`accept`/`complete`/`fail`/`expire`/`cancel` for offers and
shipments, and `accept`/`complete`/`fail`/`cancel` for requests —
`expire_request` alone is outside this statement because its source body is
ill-typed Rust and cannot be embedded, see the note at its would-be
definition), the status moves only along the graph edges — each operation
succeeds only from its designated source state and lands in its designated
target, and every error leaves the status unchanged; an operation attempted
from a state outside its allowed source returns `IncorrectState` with the
whole world (record and balances) unchanged, **except** `expire`, which
returns `OperationNotAllowed` (with the world unchanged) whenever the grace
window has not elapsed, regardless of the state.  The `update_status`
helper of each record kind, by contrast, sets any status unconditionally. -/
theorem C3_amended_lifecycle_graph :
    (∀ (w : OfferWorld) (g1 g2 : String),
      (((Offer.accept_offer w g1 g2).1 = none →
          w.offer.status = OfferStatus.Listed ∧
          (Offer.accept_offer w g1 g2).2.offer.status = OfferStatus.Accepted) ∧
        ((Offer.accept_offer w g1 g2).1 ≠ none →
          (Offer.accept_offer w g1 g2).2.offer.status = w.offer.status)) ∧
      (w.offer.status ≠ OfferStatus.Listed →
        Offer.accept_offer w g1 g2 = (some DErr.IncorrectState, w))) ∧
    (∀ (w : OfferWorld) (k1 k2 : String),
      (((Offer.complete_offer w k1 k2).1 = none →
          w.offer.status = OfferStatus.Accepted ∧
          (Offer.complete_offer w k1 k2).2.offer.status = OfferStatus.Completed) ∧
        ((Offer.complete_offer w k1 k2).1 ≠ none →
          (Offer.complete_offer w k1 k2).2.offer.status = w.offer.status)) ∧
      (w.offer.status ≠ OfferStatus.Accepted →
        Offer.complete_offer w k1 k2 = (some DErr.IncorrectState, w))) ∧
    (∀ (w : OfferWorld) (k : String),
      (((Offer.fail_offer w k).1 = none →
          w.offer.status = OfferStatus.Accepted ∧
          (Offer.fail_offer w k).2.offer.status = OfferStatus.Failed) ∧
        ((Offer.fail_offer w k).1 ≠ none →
          (Offer.fail_offer w k).2.offer.status = w.offer.status)) ∧
      (w.offer.status ≠ OfferStatus.Accepted →
        Offer.fail_offer w k = (some DErr.IncorrectState, w))) ∧
    (∀ (w : OfferWorld) (now : Int),
      (((Offer.expire_offer w now).1 = none →
          w.offer.status = OfferStatus.Accepted ∧
          (Offer.expire_offer w now).2.offer.status = OfferStatus.Expired) ∧
        ((Offer.expire_offer w now).1 ≠ none →
          (Offer.expire_offer w now).2.offer.status = w.offer.status)) ∧
      (now ≤ w.offer.meeting_datetime + hours24 →
        Offer.expire_offer w now = (some DErr.OperationNotAllowed, w)) ∧
      (¬ now ≤ w.offer.meeting_datetime + hours24 →
        w.offer.status ≠ OfferStatus.Accepted →
        Offer.expire_offer w now = (some DErr.IncorrectState, w))) ∧
    (∀ (w : OfferWorld),
      (((Offer.cancel_offer w).1 = none →
          w.offer.status = OfferStatus.Listed ∧
          (Offer.cancel_offer w).2.offer.status = OfferStatus.Canceled) ∧
        ((Offer.cancel_offer w).1 ≠ none →
          (Offer.cancel_offer w).2.offer.status = w.offer.status)) ∧
      (w.offer.status ≠ OfferStatus.Listed →
        Offer.cancel_offer w = (some DErr.IncorrectState, w))) ∧
    (∀ (w : RequestWorld) (g1 g2 : String),
      (((Request.accept_request w g1 g2).1 = none →
          w.request.status = RequestStatus.Listed ∧
          (Request.accept_request w g1 g2).2.request.status =
            RequestStatus.Accepted) ∧
        ((Request.accept_request w g1 g2).1 ≠ none →
          (Request.accept_request w g1 g2).2.request.status =
            w.request.status)) ∧
      (w.request.status ≠ RequestStatus.Listed →
        Request.accept_request w g1 g2 = (some DErr.IncorrectState, w))) ∧
    (∀ (w : RequestWorld) (k1 k2 : String),
      (((Request.complete_request w k1 k2).1 = none →
          w.request.status = RequestStatus.Accepted ∧
          (Request.complete_request w k1 k2).2.request.status =
            RequestStatus.Completed) ∧
        ((Request.complete_request w k1 k2).1 ≠ none →
          (Request.complete_request w k1 k2).2.request.status =
            w.request.status)) ∧
      (w.request.status ≠ RequestStatus.Accepted →
        Request.complete_request w k1 k2 = (some DErr.IncorrectState, w))) ∧
    (∀ (w : RequestWorld) (k : String),
      (((Request.fail_request w k).1 = none →
          w.request.status = RequestStatus.Accepted ∧
          (Request.fail_request w k).2.request.status = RequestStatus.Failed) ∧
        ((Request.fail_request w k).1 ≠ none →
          (Request.fail_request w k).2.request.status = w.request.status)) ∧
      (w.request.status ≠ RequestStatus.Accepted →
        Request.fail_request w k = (some DErr.IncorrectState, w))) ∧
    (∀ (w : RequestWorld),
      (((Request.cancel_request w).1 = none →
          w.request.status = RequestStatus.Listed ∧
          (Request.cancel_request w).2.request.status =
            RequestStatus.Canceled) ∧
        ((Request.cancel_request w).1 ≠ none →
          (Request.cancel_request w).2.request.status = w.request.status)) ∧
      (w.request.status ≠ RequestStatus.Listed →
        Request.cancel_request w = (some DErr.IncorrectState, w))) ∧
    (∀ (w : ShipmentWorld) (g1 g2 g3 : String),
      (((Shipment.accept_shipment w g1 g2 g3).1 = none →
          w.shipment.status = ShipmentStatus.Listed ∧
          (Shipment.accept_shipment w g1 g2 g3).2.shipment.status =
            ShipmentStatus.Accepted) ∧
        ((Shipment.accept_shipment w g1 g2 g3).1 ≠ none →
          (Shipment.accept_shipment w g1 g2 g3).2.shipment.status =
            w.shipment.status)) ∧
      (w.shipment.status ≠ ShipmentStatus.Listed →
        Shipment.accept_shipment w g1 g2 g3 = (some DErr.IncorrectState, w))) ∧
    (∀ (w : ShipmentWorld) (k1 k2 : String),
      (((Shipment.complete_shipment w k1 k2).1 = none →
          w.shipment.status = ShipmentStatus.Accepted ∧
          (Shipment.complete_shipment w k1 k2).2.shipment.status =
            ShipmentStatus.Completed) ∧
        ((Shipment.complete_shipment w k1 k2).1 ≠ none →
          (Shipment.complete_shipment w k1 k2).2.shipment.status =
            w.shipment.status)) ∧
      (w.shipment.status ≠ ShipmentStatus.Accepted →
        Shipment.complete_shipment w k1 k2 = (some DErr.IncorrectState, w))) ∧
    (∀ (w : ShipmentWorld) (k : String),
      (((Shipment.fail_shipment w k).1 = none →
          w.shipment.status = ShipmentStatus.Accepted ∧
          (Shipment.fail_shipment w k).2.shipment.status = ShipmentStatus.Failed) ∧
        ((Shipment.fail_shipment w k).1 ≠ none →
          (Shipment.fail_shipment w k).2.shipment.status = w.shipment.status)) ∧
      (w.shipment.status ≠ ShipmentStatus.Accepted →
        Shipment.fail_shipment w k = (some DErr.IncorrectState, w))) ∧
    (∀ (w : ShipmentWorld) (now : Int),
      (((Shipment.expire_shipment w now).1 = none →
          w.shipment.status = ShipmentStatus.Accepted ∧
          (Shipment.expire_shipment w now).2.shipment.status =
            ShipmentStatus.Expired) ∧
        ((Shipment.expire_shipment w now).1 ≠ none →
          (Shipment.expire_shipment w now).2.shipment.status =
            w.shipment.status)) ∧
      (now ≤ w.shipment.drop_off_datetime + hours24 →
        Shipment.expire_shipment w now = (some DErr.OperationNotAllowed, w)) ∧
      (¬ now ≤ w.shipment.drop_off_datetime + hours24 →
        w.shipment.status ≠ ShipmentStatus.Accepted →
        Shipment.expire_shipment w now = (some DErr.IncorrectState, w))) ∧
    (∀ (w : ShipmentWorld),
      (((Shipment.cancel_shipment w).1 = none →
          w.shipment.status = ShipmentStatus.Listed ∧
          (Shipment.cancel_shipment w).2.shipment.status =
            ShipmentStatus.Canceled) ∧
        ((Shipment.cancel_shipment w).1 ≠ none →
          (Shipment.cancel_shipment w).2.shipment.status = w.shipment.status)) ∧
      (w.shipment.status ≠ ShipmentStatus.Listed →
        Shipment.cancel_shipment w = (some DErr.IncorrectState, w))) ∧
    (∀ (o : Offer) (s : OfferStatus), (Offer.update_status o s).status = s) ∧
    (∀ (r : Request) (s : RequestStatus), (Request.update_status r s).status = s) ∧
    (∀ (sh : Shipment) (s : ShipmentStatus),
      (Shipment.update_status sh s).status = s) := by
  refine ⟨?_, ?_, ?_, ?_, ?_, ?_, ?_, ?_, ?_, ?_, ?_, ?_, ?_, ?_, ?_, ?_, ?_⟩
  · exact fun w g1 g2 =>
      ⟨accept_offer_edges w g1 g2, accept_offer_wrong_state w g1 g2⟩
  · exact fun w k1 k2 =>
      ⟨complete_offer_edges w k1 k2, complete_offer_wrong_state w k1 k2⟩
  · exact fun w k => ⟨fail_offer_edges w k, fail_offer_wrong_state w k⟩
  · exact fun w now =>
      ⟨expire_offer_edges w now, (expire_offer_wrong_state w now).1,
        (expire_offer_wrong_state w now).2⟩
  · exact fun w => ⟨cancel_offer_edges w, cancel_offer_wrong_state w⟩
  · exact fun w g1 g2 =>
      ⟨accept_request_edges w g1 g2, accept_request_wrong_state w g1 g2⟩
  · exact fun w k1 k2 =>
      ⟨complete_request_edges w k1 k2, complete_request_wrong_state w k1 k2⟩
  · exact fun w k => ⟨fail_request_edges w k, fail_request_wrong_state w k⟩
  · exact fun w => ⟨cancel_request_edges w, cancel_request_wrong_state w⟩
  · exact fun w g1 g2 g3 =>
      ⟨accept_shipment_edges w g1 g2 g3, accept_shipment_wrong_state w g1 g2 g3⟩
  · exact fun w k1 k2 =>
      ⟨complete_shipment_edges w k1 k2, complete_shipment_wrong_state w k1 k2⟩
  · exact fun w k => ⟨fail_shipment_edges w k, fail_shipment_wrong_state w k⟩
  · exact fun w now =>
      ⟨expire_shipment_edges w now, (expire_shipment_wrong_state w now).1,
        (expire_shipment_wrong_state w now).2⟩
  · exact fun w => ⟨cancel_shipment_edges w, cancel_shipment_wrong_state w⟩
  · intro o s
    rfl
  · intro r s
    rfl
  · intro sh s
    rfl

/-- Witness for the amended C3: from the reachable terminal world
`wCompleted`, `accept_offer` is rejected with `IncorrectState` and nothing
changes; and the successful acceptance from `wListed` lands in `Accepted`. -/
theorem C3_amended_lifecycle_graph_witness :
    Offer.accept_offer wCompleted "x" "y" = (some DErr.IncorrectState, wCompleted) ∧
    (wListed.offer.status = OfferStatus.Listed ∧
      (Offer.accept_offer wListed "sk" "bk").2.offer.status =
        OfferStatus.Accepted) :=
  ⟨(C3_amended_lifecycle_graph.1 wCompleted "x" "y").2 (by decide),
   ((C3_amended_lifecycle_graph.1 wListed "sk" "bk").1).1 wAccepted_reachable⟩

/-- **C6 counterexample** (status: corrected).  The claim says `fail`
succeeds **only when the first-stage secret has already been consumed**.
In the reachable world `wAccepted` the buyer's (first-stage) key slot still
holds "bk" — nothing has been consumed — yet `fail_offer` with the correct
seller key succeeds, transfers payment + 2·insurance (300) to the penalty
sink and marks the deal `Failed`. -/
theorem C6_fail_succeeds_without_first_stage_consumption :
    wAccepted.offer.buyer_key = "bk" ∧
    wAccepted.offer.buyer_key ≠ "" ∧
    (Offer.fail_offer wAccepted "sk").1 = none ∧
    (Offer.fail_offer wAccepted "sk").2.penalty_acct = 300 ∧
    (Offer.fail_offer wAccepted "sk").2.offer.status = OfferStatus.Failed := by
  refine ⟨rfl, ?_, rfl, rfl, rfl⟩
  decide

/-- **C6 amended** (status: corrected).  From `Accepted`, `fail` succeeds
whenever the presented seller (resp. sender) key matches its stored slot —
there is no requirement that the first-stage secret has been consumed; a
shipment additionally requires its carrier-key slot to be **non-empty**
(a consumed slot is the cleared, empty one, so this is the opposite gate of
the claim's).  On success it transfers the deal's entire escrowed amount
(payment + 2·insurance for offers and requests; payment + insurance for
shipments, which have a single insurance leg) to the penalty sink, clears
all secret slots, marks the buyer (offers/requests) resp. carrier
(shipments) as failed, and sets the status to `Failed`. -/
theorem C6_amended_fail_behavior :
    (∀ (w : OfferWorld) (k : String),
      w.offer.status = OfferStatus.Accepted →
      ((k ≠ w.offer.seller_key →
          Offer.fail_offer w k = (some DErr.KeyMismatch, w)) ∧
        (k = w.offer.seller_key →
          w.offer.payment + 2 * w.offer.insurance ≤ w.escrow_acct →
          Offer.fail_offer w k =
            (none,
              { w with
                escrow_acct :=
                  w.escrow_acct - (w.offer.payment + 2 * w.offer.insurance)
                penalty_acct :=
                  w.penalty_acct + (w.offer.payment + 2 * w.offer.insurance)
                buyer := w.buyer.mark_deal false
                offer := { w.offer with
                  buyer_key := ""
                  seller_key := ""
                  status := OfferStatus.Failed } })))) ∧
    (∀ (w : RequestWorld) (k : String),
      w.request.status = RequestStatus.Accepted →
      ((k ≠ w.request.seller_key →
          Request.fail_request w k = (some DErr.KeyMismatch, w)) ∧
        (k = w.request.seller_key →
          w.request.payment + 2 * w.request.insurance ≤ w.escrow_acct →
          Request.fail_request w k =
            (none,
              { w with
                escrow_acct :=
                  w.escrow_acct - (w.request.payment + 2 * w.request.insurance)
                penalty_acct :=
                  w.penalty_acct + (w.request.payment + 2 * w.request.insurance)
                buyer := w.buyer.mark_deal false
                request := { w.request with
                  buyer_key := ""
                  seller_key := ""
                  status := RequestStatus.Failed } })))) ∧
    (∀ (w : ShipmentWorld) (k : String),
      w.shipment.status = ShipmentStatus.Accepted →
      ((w.shipment.carrier_key = "" →
          Shipment.fail_shipment w k = (some DErr.OperationNotAllowed, w)) ∧
        (w.shipment.carrier_key ≠ "" → k ≠ w.shipment.sender_key →
          Shipment.fail_shipment w k = (some DErr.KeyMismatch, w)) ∧
        (w.shipment.carrier_key ≠ "" → k = w.shipment.sender_key →
          w.shipment.payment + w.shipment.insurance ≤ w.escrow_acct →
          Shipment.fail_shipment w k =
            (none,
              { w with
                escrow_acct :=
                  w.escrow_acct - (w.shipment.payment + w.shipment.insurance)
                penalty_acct :=
                  w.penalty_acct + (w.shipment.payment + w.shipment.insurance)
                carrier := w.carrier.mark_deal false
                shipment := { w.shipment with
                  sender_key := ""
                  carrier_key := ""
                  recipient_key := ""
                  status := ShipmentStatus.Failed } })))) := by
  refine ⟨?_, ?_, ?_⟩
  · intro w k hs
    constructor
    · intro hk
      simp [Offer.fail_offer, hs, hk]
    · intro hk he
      simp [Offer.fail_offer, hs, hk, DLUToken.transfer, Nat.not_lt.mpr he]
  · intro w k hs
    constructor
    · intro hk
      simp [Request.fail_request, hs, hk]
    · intro hk he
      simp [Request.fail_request, hs, hk, DLUToken.transfer, Nat.not_lt.mpr he]
  · intro w k hs
    refine ⟨?_, ?_, ?_⟩
    · intro hc
      simp [Shipment.fail_shipment, hs, hc]
    · intro hc hk
      simp [Shipment.fail_shipment, hs, hc, hk]
    · intro hc hk he
      simp [Shipment.fail_shipment, hs, hc, hk, DLUToken.transfer,
        Nat.not_lt.mpr he]

/-- Witness for the amended C6: the concrete failure of `wAccepted` with the
matching seller key "sk" produces exactly the predicted world. -/
theorem C6_amended_fail_behavior_witness :
    Offer.fail_offer wAccepted "sk" =
      (none,
        { wAccepted with
          escrow_acct :=
            wAccepted.escrow_acct -
              (wAccepted.offer.payment + 2 * wAccepted.offer.insurance)
          penalty_acct :=
            wAccepted.penalty_acct +
              (wAccepted.offer.payment + 2 * wAccepted.offer.insurance)
          buyer := wAccepted.buyer.mark_deal false
          offer := { wAccepted.offer with
            buyer_key := ""
            seller_key := ""
            status := OfferStatus.Failed } }) :=
  (C6_amended_fail_behavior.1 wAccepted "sk" (by decide)).2 (by decide) (by decide)

/-- **C7 counterexample** (status: corrected).  The claim says `expire`
succeeds **at or after** the instant meeting/drop-off time + 24h.  The code
requires the current time to be strictly greater: called exactly at that
instant on the reachable accepted world `wAccepted`, `expire_offer` is
rejected with `OperationNotAllowed` and nothing changes. -/
theorem C7_expire_rejected_at_grace_boundary :
    wAccepted.offer.status = OfferStatus.Accepted ∧
    Offer.expire_offer wAccepted (wAccepted.offer.meeting_datetime + hours24) =
      (some DErr.OperationNotAllowed, wAccepted) :=
  ⟨rfl, (expire_offer_wrong_state wAccepted
    (wAccepted.offer.meeting_datetime + hours24)).1 (le_refl _)⟩

/-- **C7 amended** (status: corrected).  For a deal in `Accepted`, `expire`
returns `OperationNotAllowed` (with nothing changed) whenever the current
time is less than **or equal to** the scheduled time + 24h, and succeeds
strictly after that instant (custody balance permitting), refunding the
full locked amounts to their original owners' accounts — payment+insurance
to the buyer and insurance to the seller for an offer; payment to the
sender and insurance to the carrier for a shipment — with no penalty
transfer and no reputation change, and sets the status to `Expired`. -/
theorem C7_amended_expire_behavior :
    (∀ (w : OfferWorld) (now : Int) (b : User),
      w.offer.status = OfferStatus.Accepted →
      ((now ≤ w.offer.meeting_datetime + hours24 →
          Offer.expire_offer w now = (some DErr.OperationNotAllowed, w)) ∧
        (¬ now ≤ w.offer.meeting_datetime + hours24 →
          w.offer.buyer = some b →
          w.offer.payment + 2 * w.offer.insurance ≤ w.escrow_acct →
          Offer.expire_offer w now =
            (none,
              { w with
                escrow_acct :=
                  w.escrow_acct - (w.offer.payment + w.offer.insurance) -
                    w.offer.insurance
                buyer_acct := w.buyer_acct + (w.offer.payment + w.offer.insurance)
                seller_acct := w.seller_acct + w.offer.insurance
                offer := { w.offer with
                  buyer := some { b with
                    wallet := { balance :=
                      b.wallet.balance + (w.offer.payment + w.offer.insurance) } }
                  seller := { w.offer.seller with
                    wallet := { balance :=
                      w.offer.seller.wallet.balance + w.offer.insurance } }
                  status := OfferStatus.Expired } })))) ∧
    (∀ (w : ShipmentWorld) (now : Int) (c : User),
      w.shipment.status = ShipmentStatus.Accepted →
      ((now ≤ w.shipment.drop_off_datetime + hours24 →
          Shipment.expire_shipment w now = (some DErr.OperationNotAllowed, w)) ∧
        (¬ now ≤ w.shipment.drop_off_datetime + hours24 →
          w.shipment.carrier = some c →
          w.shipment.payment + w.shipment.insurance ≤ w.escrow_acct →
          Shipment.expire_shipment w now =
            (none,
              { w with
                escrow_acct :=
                  w.escrow_acct - w.shipment.payment - w.shipment.insurance
                sender_acct := w.sender_acct + w.shipment.payment
                carrier_acct := w.carrier_acct + w.shipment.insurance
                shipment := { w.shipment with
                  sender := { w.shipment.sender with
                    wallet := { balance :=
                      w.shipment.sender.wallet.balance + w.shipment.payment } }
                  carrier := some { c with
                    wallet := { balance :=
                      c.wallet.balance + w.shipment.insurance } }
                  status := ShipmentStatus.Expired } })))) := by
  constructor
  · intro w now b hs
    constructor
    · exact (expire_offer_wrong_state w now).1
    · intro h1 hb he
      have t1 : ¬ (w.escrow_acct < w.offer.payment + w.offer.insurance) := by
        omega
      have t2 : ¬ (w.escrow_acct - (w.offer.payment + w.offer.insurance) <
          w.offer.insurance) := by
        omega
      simp [Offer.expire_offer, h1, hs, hb, DLUToken.transfer, t1, t2]
  · intro w now c hs
    constructor
    · exact (expire_shipment_wrong_state w now).1
    · intro h1 hb he
      have t1 : ¬ (w.escrow_acct < w.shipment.payment) := by
        omega
      have t2 : ¬ (w.escrow_acct - w.shipment.payment < w.shipment.insurance) := by
        omega
      simp [Shipment.expire_shipment, h1, hs, hb, DLUToken.transfer, t1, t2]

/-- Witness for the amended C7: one second after the grace instant, expiring
the reachable accepted world `wAccepted` succeeds and produces exactly the
predicted full refund. -/
theorem C7_amended_expire_behavior_witness :
    Offer.expire_offer wAccepted (wAccepted.offer.meeting_datetime + hours24 + 1) =
      (none,
        { wAccepted with
          escrow_acct :=
            wAccepted.escrow_acct -
              (wAccepted.offer.payment + wAccepted.offer.insurance) -
              wAccepted.offer.insurance
          buyer_acct :=
            wAccepted.buyer_acct +
              (wAccepted.offer.payment + wAccepted.offer.insurance)
          seller_acct := wAccepted.seller_acct + wAccepted.offer.insurance
          offer := { wAccepted.offer with
            buyer := some { mkUser 200 with
              wallet := { balance :=
                (mkUser 200).wallet.balance +
                  (wAccepted.offer.payment + wAccepted.offer.insurance) } }
            seller := { wAccepted.offer.seller with
              wallet := { balance :=
                wAccepted.offer.seller.wallet.balance +
                  wAccepted.offer.insurance } }
            status := OfferStatus.Expired } }) :=
  ((C7_amended_expire_behavior.1 wAccepted
      (wAccepted.offer.meeting_datetime + hours24 + 1) (mkUser 200)
      (by decide)).2 (by decide) (by decide) (by decide))

/-- `wListed` with a buyer ledger balance of only 100, short of the required
payment+insurance = 200. -/
def wListedPoor : OfferWorld := { wListed with buyer_acct := 100 }

/-- **C8 counterexample** (status: corrected).  The claim says that when
`accept` fails with insufficient funds, the deal record (secret slots,
counterparty slot, status) is exactly as before.  Balances and status are
indeed unchanged, but the record is **not**: the failed acceptance has
already overwritten both key slots and the buyer slot. -/
theorem C8_failed_accept_mutates_record :
    (Offer.accept_offer wListedPoor "sk" "bk").1 = some DErr.InsufficientFunds ∧
    (Offer.accept_offer wListedPoor "sk" "bk").2.buyer_acct =
      wListedPoor.buyer_acct ∧
    (Offer.accept_offer wListedPoor "sk" "bk").2.escrow_acct =
      wListedPoor.escrow_acct ∧
    (Offer.accept_offer wListedPoor "sk" "bk").2.buyer = wListedPoor.buyer ∧
    (Offer.accept_offer wListedPoor "sk" "bk").2.offer.status =
      OfferStatus.Listed ∧
    (Offer.accept_offer wListedPoor "sk" "bk").2.offer ≠ wListedPoor.offer ∧
    (Offer.accept_offer wListedPoor "sk" "bk").2.offer.seller_key = "sk" ∧
    (Offer.accept_offer wListedPoor "sk" "bk").2.offer.buyer =
      some wListedPoor.buyer := by
  refine ⟨rfl, rfl, rfl, rfl, rfl, ?_, rfl, rfl⟩
  decide

/-- **C8 amended** (status: corrected).  When `accept` fails on the
insufficient-funds check from `Listed`, all balances, the wallets and the
status are unchanged — but the returned record has already had its secret
slots and its counterparty slot overwritten (the key generation and the
counterparty assignment precede the funds check). -/
theorem C8_amended_accept_insufficient_funds :
    (∀ (w : OfferWorld) (g1 g2 : String),
      w.offer.status = OfferStatus.Listed →
      w.buyer_acct < w.offer.payment + w.offer.insurance →
      Offer.accept_offer w g1 g2 =
        (some DErr.InsufficientFunds,
          { w with offer := { w.offer with
              seller_key := g1
              buyer_key := g2
              buyer := some w.buyer } })) ∧
    (∀ (w : ShipmentWorld) (g1 g2 g3 : String),
      w.shipment.status = ShipmentStatus.Listed →
      w.carrier_acct < w.shipment.insurance →
      Shipment.accept_shipment w g1 g2 g3 =
        (some DErr.InsufficientFunds,
          { w with shipment := { w.shipment with
              sender_key := g1
              carrier_key := g2
              recipient_key := g3
              carrier := some w.carrier } })) := by
  constructor
  · intro w g1 g2 hs h
    simp [Offer.accept_offer, hs, h]
  · intro w g1 g2 g3 hs h
    simp [Shipment.accept_shipment, hs, h]

/-- Witness for the amended C8 at the concrete short-funded world
`wListedPoor`. -/
theorem C8_amended_accept_insufficient_funds_witness :
    Offer.accept_offer wListedPoor "sk" "bk" =
      (some DErr.InsufficientFunds,
        { wListedPoor with offer := { wListedPoor.offer with
            seller_key := "sk"
            buyer_key := "bk"
            buyer := some wListedPoor.buyer } }) :=
  C8_amended_accept_insufficient_funds.1 wListedPoor "sk" "bk" (by decide)
    (by decide)

end Luda
